import Mathlib

/-!
Verification of Shared/HoloLensForCV/MediaFrameReaderContext.cpp.

The file shallowly embeds MediaFrameReaderContext::FrameArrived and
MediaFrameReaderContext::GetLatestSensorFrame.  External collaborators
(the media frame reader, the perception-timestamp helper, coordinate
systems) are modelled as explicit inputs; the handler's side effects
(diagnostic traces, sink delivery, the lock-guarded cache write) are
recorded in an ordered event trace.  A thrown C++/CX exception that the
handler does not catch is modelled by the handler returning
`Except.error`; the one `try`/`catch` in the source (around
`PerceptionTimestampHelper::FromHistoricalTargetTime`, lines 104-119)
is modelled by that collaborator returning `Option` and the handler
taking its early-return branch on `none`.

4x4 float matrices are represented by their sixteen 32-bit entry bit
patterns (row-major m11..m44); the all-zero sentinel produced by the
source's `memset` is then the matrix whose entries are all the word 0,
which coincides with the bit pattern of sixteen 0.0f floats.
-/

/-- A 4x4 single-precision matrix, represented by the bit patterns of its
sixteen entries in row-major order (m11, m12, ..., m44).  Byte-level
reinterpretation of metadata payloads and the `memset`-zero sentinel are
both faithfully expressible on bit patterns. -/
structure Float4x4 where
  words : List Nat
deriving DecidableEq

/-- The all-zero 4x4 matrix written by `memset(&zero, 0, sizeof(zero))`
(lines 189-197 and 231-238): every entry's bit pattern is 0. -/
def zeroMatrix : Float4x4 :=
  ⟨List.replicate 16 0⟩

/-- The little-endian 32-bit word starting at byte offset `4*i` of `bytes`;
bytes past the end of the list read as 0.  Each byte is reduced mod 256,
mirroring byte storage. -/
def word32At (bytes : List Nat) (i : Nat) : Nat :=
  bytes.getD (4 * i) 0 % 256
    + 256 * (bytes.getD (4 * i + 1) 0 % 256)
    + 65536 * (bytes.getD (4 * i + 2) 0 % 256)
    + 16777216 * (bytes.getD (4 * i + 3) 0 % 256)

/-- `*reinterpret_cast<Windows::Foundation::Numerics::float4x4*>(data)`
(line 213): the 64-byte payload is reinterpreted in place as sixteen
little-endian 32-bit floats, here kept as their bit patterns. -/
def bytesToFloat4x4 (bytes : List Nat) : Float4x4 :=
  ⟨(List.range 16).map (word32At bytes)⟩

/-- The HoloLensForCV sensor-type enumeration; FrameArrived distinguishes
only the four visible-light (tracking/grayscale) cameras from the rest
(lines 256-259). -/
inductive SensorType where
  | PhotoVideo
  | ShortThrowToFDepth
  | ShortThrowToFReflectivity
  | LongThrowToFDepth
  | LongThrowToFReflectivity
  | VisibleLightLeftLeft
  | VisibleLightLeftFront
  | VisibleLightRightFront
  | VisibleLightRightRight
deriving DecidableEq

/-- A Windows::Perception::Spatial::SpatialCoordinateSystem, modelled by
its `TryGetTransformTo` behaviour: for a target coordinate-system id it
yields the boxed transform, or `none` when `TryGetTransformTo` returns
nullptr (lines 159-163). -/
structure SpatialCoordinateSystem where
  tryGetTransformTo : Nat → Option Float4x4

/-- A value stored in the frame's property bag (`frame->Properties`).
The source retrieves these as `Platform::Object^` and casts; the
constructors record the value's dynamic type so that `safe_cast`
behaviour is expressible. -/
inductive PropValue where
  | nullValue : PropValue
  | coordinateSystem : SpatialCoordinateSystem → PropValue
  | byteArray : List Nat → PropValue
  | intrinsicsHandle : Nat → PropValue
  | otherObject : Nat → PropValue

/-- A C++/CX platform exception escaping the handler. -/
inductive PlatformExn where
  | invalidCast
  | nullReference
deriving DecidableEq

/-- `safe_cast<Windows::Perception::Spatial::SpatialCoordinateSystem^>`
(line 152): succeeds on a coordinate system, maps nullptr to nullptr, and
throws Platform::InvalidCastException on any other dynamic type. -/
def castToCoordinateSystem : PropValue → Except PlatformExn (Option SpatialCoordinateSystem)
  | PropValue.nullValue => Except.ok none
  | PropValue.coordinateSystem cs => Except.ok (some cs)
  | PropValue.byteArray _ => Except.error PlatformExn.invalidCast
  | PropValue.intrinsicsHandle _ => Except.error PlatformExn.invalidCast
  | PropValue.otherObject _ => Except.error PlatformExn.invalidCast

/-- `safe_cast<Platform::IBoxArray<byte>^>(mfMtUserData)->Value`
(lines 210-211): yields the byte payload of a boxed byte array, throws
Platform::InvalidCastException on a value of another type, and throws a
null-dereference failure when the stored value is nullptr (the `->Value`
call on the null result of the cast). -/
def castToByteArray : PropValue → Except PlatformExn (List Nat)
  | PropValue.nullValue => Except.error PlatformExn.nullReference
  | PropValue.coordinateSystem _ => Except.error PlatformExn.invalidCast
  | PropValue.byteArray bytes => Except.ok bytes
  | PropValue.intrinsicsHandle _ => Except.error PlatformExn.invalidCast
  | PropValue.otherObject _ => Except.error PlatformExn.invalidCast

/-- `reinterpret_cast<SensorStreaming::ICameraIntrinsics*>` (line 248):
a pointer reinterpretation that never throws; on a value that is not an
intrinsics handle the resulting pointer is meaningless, modelled by 0. -/
def reinterpretAsIntrinsicsHandle : PropValue → Nat
  | PropValue.intrinsicsHandle h => h
  | _ => 0

/-- Property-bag keys are GUIDs, modelled as the 128-bit value written as
one number. -/
abbrev Guid := Nat

/-- {9d13c82f-2199-4e67-91cd-d1a4181f2534}, line 146. -/
def c_MFSampleExtension_Spatial_CameraCoordinateSystem : Guid :=
  0x9d13c82f21994e6791cdd1a4181f2534

/-- {4e251fa4-830f-4770-859a-4b8d99aa809b}, line 204. -/
def c_MFSampleExtension_Spatial_CameraViewTransform : Guid :=
  0x4e251fa4830f4770859a4b8d99aa809b

/-- Modelled from the spec: the third fixed metadata key
(SensorStreaming::MFSampleExtension_SensorStreaming_CameraIntrinsics,
line 246), whose GUID value lives in a SensorStreaming header that is not
part of the available source; any value distinct from the two spatial
keys is faithful. -/
def MFSampleExtension_SensorStreaming_CameraIntrinsics : Guid :=
  1

/-- `frame->Properties->HasKey(k)` followed by
`frame->Properties->Lookup(k)`: the property bag is an association list;
the first entry with key `k`, if any. -/
def lookupProp (props : List (Guid × PropValue)) (key : Guid) : Option PropValue :=
  (props.find? (fun entry => entry.1 = key)).map (fun entry => entry.2)

/-- A Windows::Graphics::Imaging::SoftwareBitmap: pixel dimensions plus
payload.  `pixelWidth` and `pixelHeight` model the nonnegative int32
values reported by the source. -/
structure SoftwareBitmap where
  pixelWidth : Nat
  pixelHeight : Nat
  pixels : List Nat
deriving DecidableEq

/-- `SoftwareBitmap::Copy` (lines 130-132): produces an independently
owned bitmap with the same dimensions and pixel payload. -/
def SoftwareBitmap.copy (bitmap : SoftwareBitmap) : SoftwareBitmap :=
  ⟨bitmap.pixelWidth, bitmap.pixelHeight, bitmap.pixels⟩

/-- `frame->VideoMediaFrame`: the decoded pixel buffer (may be null) and
the frame's built-in `CameraIntrinsics` object (line 245), modelled as an
optional opaque handle. -/
structure VideoMediaFrame where
  softwareBitmap : Option SoftwareBitmap
  cameraIntrinsics : Option Nat

/-- A Windows::Media::Capture::Frames::MediaFrameReference: the
system-boot-relative timestamp duration (`SystemRelativeTime->Value.Duration`,
in hundreds of nanoseconds), the optional video payload, and the
property bag. -/
structure MediaFrameReference where
  systemRelativeTime : Int
  videoMediaFrame : Option VideoMediaFrame
  properties : List (Guid × PropValue)

/-- The HoloLensForCV CameraIntrinsics wrapper constructed at lines
264-265: the native intrinsics handle plus the effective image width and
height. -/
structure CameraIntrinsics where
  handle : Nat
  imageWidth : Nat
  imageHeight : Nat
deriving DecidableEq

/-- The SensorFrame record produced for a successfully processed arrival.
`cameraIntrinsics` is `none` when the handler never assigns the field
(the C++/CX reference member stays null). -/
structure SensorFrame where
  sensorType : SensorType
  timestamp : Int
  softwareBitmap : SoftwareBitmap
  frameToOrigin : Float4x4
  cameraViewTransform : Float4x4
  cameraIntrinsics : Option CameraIntrinsics
deriving DecidableEq

/-- An observable side effect of the handler, in program order:
a diagnostic trace, a sink delivery (`_sensorFrameSink->Send`), and the
acquisition, write and release of the latest-frame mutex. -/
inductive Event where
  | log : Event
  | send : SensorFrame → Event
  | lockAcquire : Event
  | cacheWrite : SensorFrame → Event
  | lockRelease : Event
deriving DecidableEq

/-- The result of one FrameArrived invocation that did not throw:
the SensorFrame stored into the cache (or `none` on an early return) and
the ordered event trace. -/
structure ArrivalOutcome where
  produced : Option SensorFrame
  events : List Event
deriving DecidableEq

/-- Modelled from the spec: the TimeConverter holds a fixed offset
between the device-relative tick domain and the absolute universal tick
domain (its implementation file is not part of the available source). -/
structure TimeConverter where
  offset : Int
deriving DecidableEq

/-- Modelled from the spec: `_timeConverter.RelativeTicksToAbsoluteTicks`
(lines 94-97) is the pure translation by the converter's fixed offset. -/
def relativeTicksToAbsoluteTicks (tc : TimeConverter) (relativeTicks : Int) : Int :=
  relativeTicks + tc.offset

/-- The SpatialPerception collaborator, reduced to what FrameArrived
consumes: `GetOriginFrameOfReference()->CoordinateSystem` (line 161),
modelled as the id of the origin coordinate system. -/
structure SpatialPerception where
  originCoordinateSystem : Nat
deriving DecidableEq

/-- The environment of one arrival: the result of
`sender->TryAcquireLatestFrame()` (line 50) and the behaviour of
`PerceptionTimestampHelper::FromHistoricalTargetTime` (lines 106-108),
where `none` models the collaborator throwing the Platform::Exception
that the handler catches at lines 110-119. -/
structure ArrivalEnv where
  acquiredFrame : Option MediaFrameReference
  fromHistoricalTargetTime : Int → Option Nat

/-- MediaFrameReaderContext: the constructor arguments (lines 16-24) plus
the mutable latest-frame slot. -/
structure MediaFrameReaderContext where
  sensorType : SensorType
  spatialPerception : SpatialPerception
  sensorFrameSink : Option Unit
  timeConverter : TimeConverter
  latestSensorFrame : Option SensorFrame
deriving DecidableEq

/-- The constructor (lines 16-24): the latest-frame slot starts null. -/
def mkMediaFrameReaderContext (sensorType : SensorType)
    (spatialPerception : SpatialPerception) (sensorFrameSink : Option Unit)
    (timeConverter : TimeConverter) : MediaFrameReaderContext :=
  ⟨sensorType, spatialPerception, sensorFrameSink, timeConverter, none⟩

/-- MediaFrameReaderContext::GetLatestSensorFrame (lines 26-37): read the
latest-frame slot under the mutex and return it; the context state after
the call is returned alongside. -/
def MediaFrameReaderContext.GetLatestSensorFrame
    (ctx : MediaFrameReaderContext) : Option SensorFrame × MediaFrameReaderContext :=
  let latestSensorFrame := ctx.latestSensorFrame
  (latestSensorFrame, ctx)

/-- The sensor-type test at lines 256-259: the four visible-light
(tracking/grayscale) cameras. -/
def isVisibleLightCamera (sensorType : SensorType) : Bool :=
  sensorType = SensorType.VisibleLightLeftFront
    || sensorType = SensorType.VisibleLightLeftLeft
    || sensorType = SensorType.VisibleLightRightFront
    || sensorType = SensorType.VisibleLightRightRight

/-- Lines 145-198: resolve the frame-to-origin transform.  If the
coordinate-system key is present, `safe_cast` the stored value (which may
throw); if a non-null coordinate system was obtained, try the transform
into the origin coordinate system; whenever no transform was obtained the
all-zero sentinel is used. -/
def extractFrameToOrigin (props : List (Guid × PropValue))
    (originCoordinateSystem : Nat) : Except PlatformExn Float4x4 :=
  match
    (match lookupProp props c_MFSampleExtension_Spatial_CameraCoordinateSystem with
     | none => Except.ok none
     | some value => castToCoordinateSystem value) with
  | Except.error e => Except.error e
  | Except.ok frameCoordinateSystem =>
    match frameCoordinateSystem with
    | none => Except.ok zeroMatrix
    | some frameCS =>
      match frameCS.tryGetTransformTo originCoordinateSystem with
      | none => Except.ok zeroMatrix
      | some frameToOriginReference => Except.ok frameToOriginReference

/-- Lines 204-239: resolve the camera-view transform.  If the
view-transform key is present, cast the stored value to a boxed byte
array (which may throw) and reinterpret its bytes in place as a 4x4
matrix; if the key is absent the all-zero sentinel is used. -/
def extractCameraViewTransform (props : List (Guid × PropValue)) :
    Except PlatformExn Float4x4 :=
  match lookupProp props c_MFSampleExtension_Spatial_CameraViewTransform with
  | none => Except.ok zeroMatrix
  | some value =>
    match castToByteArray value with
    | Except.error e => Except.error e
    | Except.ok bytes => Except.ok (bytesToFloat4x4 bytes)

/-- Lines 245-266: when the sensor-streaming intrinsics key is present,
wrap the reinterpreted handle with the effective width and the reported
height.  The width computation is `unsigned int` arithmetic: the bitmap's
pixel width, multiplied by 4 for the visible-light cameras, reduced
mod 2^32. -/
def extractCameraIntrinsics (sensorType : SensorType)
    (softwareBitmap : SoftwareBitmap) (props : List (Guid × PropValue)) :
    Option CameraIntrinsics :=
  match lookupProp props MFSampleExtension_SensorStreaming_CameraIntrinsics with
  | none => none
  | some value =>
    let cameraIntrinsics := reinterpretAsIntrinsicsHandle value
    let imageWidth := softwareBitmap.pixelWidth % 4294967296
    let imageWidth :=
      if isVisibleLightCamera sensorType then imageWidth * 4 % 4294967296
      else imageWidth
    some ⟨cameraIntrinsics, imageWidth, softwareBitmap.pixelHeight⟩

/-- Lines 268-277: the trailing side effects of a successful arrival —
the optional synchronous sink delivery, then the lock-guarded cache
write. -/
def sinkEvents (sensorFrameSink : Option Unit) (sensorFrame : SensorFrame) :
    List Event :=
  (match sensorFrameSink with
   | some _ => [Event.send sensorFrame]
   | none => []) ++ [Event.lockAcquire, Event.cacheWrite sensorFrame, Event.lockRelease]

/-- MediaFrameReaderContext::FrameArrived (lines 39-278).  `Except.error`
models a C++/CX exception escaping the handler; an `Except.ok` outcome
records the frame stored into the cache (`none` on an early return) and
the ordered trace of observable side effects. -/
def MediaFrameReaderContext.FrameArrived (ctx : MediaFrameReaderContext)
    (env : ArrivalEnv) : Except PlatformExn ArrivalOutcome :=
  match env.acquiredFrame with
  | none => Except.ok ⟨none, [Event.log]⟩
  | some frame =>
    match frame.videoMediaFrame with
    | none => Except.ok ⟨none, [Event.log]⟩
    | some videoMediaFrame =>
      match videoMediaFrame.softwareBitmap with
      | none => Except.ok ⟨none, [Event.log]⟩
      | some bitmap =>
        let timestamp :=
          relativeTicksToAbsoluteTicks ctx.timeConverter frame.systemRelativeTime
        match env.fromHistoricalTargetTime timestamp with
        | none => Except.ok ⟨none, [Event.log]⟩
        | some _perceptionTimestamp =>
          let softwareBitmap := SoftwareBitmap.copy bitmap
          match extractFrameToOrigin frame.properties
              ctx.spatialPerception.originCoordinateSystem with
          | Except.error e => Except.error e
          | Except.ok frameToOrigin =>
            match extractCameraViewTransform frame.properties with
            | Except.error e => Except.error e
            | Except.ok cameraViewTransform =>
              let _ci := videoMediaFrame.cameraIntrinsics
              let cameraIntrinsics :=
                extractCameraIntrinsics ctx.sensorType softwareBitmap frame.properties
              let sensorFrame : SensorFrame :=
                ⟨ctx.sensorType, timestamp, softwareBitmap, frameToOrigin,
                  cameraViewTransform, cameraIntrinsics⟩
              Except.ok ⟨some sensorFrame, sinkEvents ctx.sensorFrameSink sensorFrame⟩

/-- The context after one arrival: the latest-frame slot is overwritten
exactly when the handler reached the cache write at lines 273-277. -/
def stepCtx (ctx : MediaFrameReaderContext) (env : ArrivalEnv) :
    MediaFrameReaderContext :=
  match ctx.FrameArrived env with
  | Except.ok outcome =>
    match outcome.produced with
    | some sensorFrame => { ctx with latestSensorFrame := some sensorFrame }
    | none => ctx
  | Except.error _ => ctx

/-- The context after a sequence of arrivals. -/
def processAll (ctx : MediaFrameReaderContext) (envs : List ArrivalEnv) :
    MediaFrameReaderContext :=
  envs.foldl stepCtx ctx

/-- The SensorFrame a given arrival produces (and stores), if any. -/
def producedFrame (ctx : MediaFrameReaderContext) (env : ArrivalEnv) :
    Option SensorFrame :=
  match ctx.FrameArrived env with
  | Except.ok outcome => outcome.produced
  | Except.error _ => none

/-- The stored value under the coordinate-system key, when present, has a
dynamic type the `safe_cast` at line 152 accepts. -/
def coordinateSystemCastSucceeds : PropValue → Bool
  | PropValue.nullValue => true
  | PropValue.coordinateSystem _ => true
  | _ => false

/-- The stored value under the view-transform key, when present, is a
boxed byte array, so the cast and dereference at lines 210-211 succeed. -/
def byteArrayCastSucceeds : PropValue → Bool
  | PropValue.byteArray _ => true
  | _ => false

/-- A property bag whose values under the two spatial keys are well-typed
for the handler's casts. -/
def propsWellTyped (props : List (Guid × PropValue)) : Bool :=
  (match lookupProp props c_MFSampleExtension_Spatial_CameraCoordinateSystem with
   | none => true
   | some value => coordinateSystemCastSucceeds value)
    && (match lookupProp props c_MFSampleExtension_Spatial_CameraViewTransform with
        | none => true
        | some value => byteArrayCastSucceeds value)

/-! ### Helper lemmas -/

/-- FrameArrived never reads the latest-frame slot: its result is
independent of the slot's value. -/
theorem frameArrived_latest_irrelevant (ctx : MediaFrameReaderContext)
    (x : Option SensorFrame) (env : ArrivalEnv) :
    MediaFrameReaderContext.FrameArrived { ctx with latestSensorFrame := x } env
      = ctx.FrameArrived env := by
  cases ctx
  rfl

theorem producedFrame_latest_irrelevant (ctx : MediaFrameReaderContext)
    (x : Option SensorFrame) (env : ArrivalEnv) :
    producedFrame { ctx with latestSensorFrame := x } env = producedFrame ctx env := by
  unfold producedFrame
  rw [frameArrived_latest_irrelevant]

theorem producedFrame_stepCtx (ctx : MediaFrameReaderContext)
    (e e' : ArrivalEnv) :
    producedFrame (stepCtx ctx e) e' = producedFrame ctx e' := by
  unfold stepCtx
  cases h : ctx.FrameArrived e with
  | error _ => rfl
  | ok outcome =>
    obtain ⟨produced, events⟩ := outcome
    cases produced with
    | none => rfl
    | some sf => exact producedFrame_latest_irrelevant ctx (some sf) e'

/-- Inversion of a successful arrival: from an `Except.ok` outcome whose
`produced` field is a frame, recover the validated inputs and the exact
shape of the produced SensorFrame and of the event trace. -/
theorem frameArrived_ok_inversion (ctx : MediaFrameReaderContext)
    (env : ArrivalEnv) (outcome : ArrivalOutcome) (sf : SensorFrame)
    (h : ctx.FrameArrived env = Except.ok outcome)
    (hp : outcome.produced = some sf) :
    ∃ frame videoMediaFrame bitmap perceptionTimestamp frameToOrigin cameraViewTransform,
      env.acquiredFrame = some frame
        ∧ frame.videoMediaFrame = some videoMediaFrame
        ∧ videoMediaFrame.softwareBitmap = some bitmap
        ∧ env.fromHistoricalTargetTime
            (relativeTicksToAbsoluteTicks ctx.timeConverter frame.systemRelativeTime)
            = some perceptionTimestamp
        ∧ extractFrameToOrigin frame.properties
            ctx.spatialPerception.originCoordinateSystem = Except.ok frameToOrigin
        ∧ extractCameraViewTransform frame.properties = Except.ok cameraViewTransform
        ∧ sf = ⟨ctx.sensorType,
            relativeTicksToAbsoluteTicks ctx.timeConverter frame.systemRelativeTime,
            SoftwareBitmap.copy bitmap, frameToOrigin, cameraViewTransform,
            extractCameraIntrinsics ctx.sensorType (SoftwareBitmap.copy bitmap)
              frame.properties⟩
        ∧ outcome = ⟨some sf, sinkEvents ctx.sensorFrameSink sf⟩ := by
  unfold MediaFrameReaderContext.FrameArrived at h
  cases hf : env.acquiredFrame with
  | none =>
    rw [hf] at h
    cases h
    simp at hp
  | some frame =>
    rw [hf] at h
    dsimp only at h
    cases hv : frame.videoMediaFrame with
    | none =>
      rw [hv] at h
      cases h
      simp at hp
    | some videoMediaFrame =>
      rw [hv] at h
      dsimp only at h
      cases hb : videoMediaFrame.softwareBitmap with
      | none =>
        rw [hb] at h
        cases h
        simp at hp
      | some bitmap =>
        rw [hb] at h
        dsimp only at h
        cases hg : env.fromHistoricalTargetTime
            (relativeTicksToAbsoluteTicks ctx.timeConverter frame.systemRelativeTime) with
        | none =>
          rw [hg] at h
          cases h
          simp at hp
        | some perceptionTimestamp =>
          rw [hg] at h
          dsimp only at h
          cases hfto : extractFrameToOrigin frame.properties
              ctx.spatialPerception.originCoordinateSystem with
          | error e =>
            rw [hfto] at h
            cases h
          | ok frameToOrigin =>
            rw [hfto] at h
            dsimp only at h
            cases hcv : extractCameraViewTransform frame.properties with
            | error e =>
              rw [hcv] at h
              cases h
            | ok cameraViewTransform =>
              rw [hcv] at h
              dsimp only at h
              cases h
              dsimp only at hp
              cases hp
              exact ⟨frame, videoMediaFrame, bitmap, perceptionTimestamp,
                frameToOrigin, cameraViewTransform, rfl, hv, hb, hg, hfto, hcv,
                rfl, rfl⟩

/-- Whether an Except value is a non-throwing result. -/
def exceptIsOk {E A : Type} : Except E A → Bool
  | Except.ok _ => true
  | Except.error _ => false

theorem extractFrameToOrigin_key_absent (props : List (Guid × PropValue))
    (origin : Nat)
    (h : lookupProp props c_MFSampleExtension_Spatial_CameraCoordinateSystem = none) :
    extractFrameToOrigin props origin = Except.ok zeroMatrix := by
  unfold extractFrameToOrigin
  rw [h]

theorem extractFrameToOrigin_resolved (props : List (Guid × PropValue))
    (origin : Nat) (cs : SpatialCoordinateSystem)
    (h : lookupProp props c_MFSampleExtension_Spatial_CameraCoordinateSystem
           = some (PropValue.coordinateSystem cs)) :
    extractFrameToOrigin props origin
      = Except.ok ((cs.tryGetTransformTo origin).getD zeroMatrix) := by
  unfold extractFrameToOrigin
  rw [h]
  dsimp only [castToCoordinateSystem]
  cases cs.tryGetTransformTo origin <;> rfl

theorem extractCameraViewTransform_key_absent (props : List (Guid × PropValue))
    (h : lookupProp props c_MFSampleExtension_Spatial_CameraViewTransform = none) :
    extractCameraViewTransform props = Except.ok zeroMatrix := by
  unfold extractCameraViewTransform
  rw [h]

theorem extractCameraViewTransform_bytes (props : List (Guid × PropValue))
    (bytes : List Nat)
    (h : lookupProp props c_MFSampleExtension_Spatial_CameraViewTransform
           = some (PropValue.byteArray bytes)) :
    extractCameraViewTransform props = Except.ok (bytesToFloat4x4 bytes) := by
  unfold extractCameraViewTransform
  rw [h]
  rfl

theorem propsWellTyped_frameToOrigin_ok (props : List (Guid × PropValue))
    (origin : Nat) (h : propsWellTyped props = true) :
    ∃ frameToOrigin, extractFrameToOrigin props origin = Except.ok frameToOrigin := by
  unfold propsWellTyped at h
  obtain ⟨h1, _⟩ := Bool.and_eq_true_iff.mp h
  unfold extractFrameToOrigin
  cases hk : lookupProp props c_MFSampleExtension_Spatial_CameraCoordinateSystem with
  | none => exact ⟨zeroMatrix, rfl⟩
  | some value =>
    cases value with
    | nullValue => exact ⟨zeroMatrix, rfl⟩
    | coordinateSystem cs =>
      dsimp only [castToCoordinateSystem]
      cases cs.tryGetTransformTo origin with
      | none => exact ⟨zeroMatrix, rfl⟩
      | some t => exact ⟨t, rfl⟩
    | byteArray bytes =>
      rw [hk] at h1
      simp [coordinateSystemCastSucceeds] at h1
    | intrinsicsHandle n =>
      rw [hk] at h1
      simp [coordinateSystemCastSucceeds] at h1
    | otherObject n =>
      rw [hk] at h1
      simp [coordinateSystemCastSucceeds] at h1

theorem propsWellTyped_cameraViewTransform_ok (props : List (Guid × PropValue))
    (h : propsWellTyped props = true) :
    ∃ cameraViewTransform,
      extractCameraViewTransform props = Except.ok cameraViewTransform := by
  unfold propsWellTyped at h
  obtain ⟨_, h2⟩ := Bool.and_eq_true_iff.mp h
  unfold extractCameraViewTransform
  cases hk : lookupProp props c_MFSampleExtension_Spatial_CameraViewTransform with
  | none => exact ⟨zeroMatrix, rfl⟩
  | some value =>
    cases value with
    | byteArray bytes => exact ⟨bytesToFloat4x4 bytes, rfl⟩
    | nullValue =>
      rw [hk] at h2
      simp [byteArrayCastSucceeds] at h2
    | coordinateSystem cs =>
      rw [hk] at h2
      simp [byteArrayCastSucceeds] at h2
    | intrinsicsHandle n =>
      rw [hk] at h2
      simp [byteArrayCastSucceeds] at h2
    | otherObject n =>
      rw [hk] at h2
      simp [byteArrayCastSucceeds] at h2

/-! ### Claim theorems -/

/-- C2: for every arrival where the acquired frame is null, the frame's
video payload is null, or the decoded pixel buffer is null, FrameArrived
returns early with only a diagnostic trace in its event list (no send, no
cache write), and the latest-frame cache slot is unchanged. -/
theorem frameArrived_null_arrival_no_effect (ctx : MediaFrameReaderContext)
    (env : ArrivalEnv)
    (h : env.acquiredFrame = none
      ∨ (∃ frame, env.acquiredFrame = some frame ∧ frame.videoMediaFrame = none)
      ∨ (∃ frame videoMediaFrame, env.acquiredFrame = some frame
           ∧ frame.videoMediaFrame = some videoMediaFrame
           ∧ videoMediaFrame.softwareBitmap = none)) :
    ctx.FrameArrived env = Except.ok ⟨none, [Event.log]⟩ ∧ stepCtx ctx env = ctx := by
  have harr : ctx.FrameArrived env = Except.ok ⟨none, [Event.log]⟩ := by
    unfold MediaFrameReaderContext.FrameArrived
    rcases h with hf | ⟨frame, hf, hv⟩ | ⟨frame, videoMediaFrame, hf, hv, hb⟩
    · rw [hf]
    · rw [hf]
      dsimp only
      rw [hv]
    · rw [hf]
      dsimp only
      rw [hv]
      dsimp only
      rw [hb]
  refine ⟨harr, ?_⟩
  unfold stepCtx
  rw [harr]

/-- C2 witness: a null acquired frame leaves the context untouched. -/
theorem frameArrived_null_arrival_no_effect_witness :
    (mkMediaFrameReaderContext SensorType.PhotoVideo ⟨0⟩ none ⟨0⟩).FrameArrived
        ⟨none, fun _ => none⟩ = Except.ok ⟨none, [Event.log]⟩
      ∧ stepCtx (mkMediaFrameReaderContext SensorType.PhotoVideo ⟨0⟩ none ⟨0⟩)
          ⟨none, fun _ => none⟩
        = mkMediaFrameReaderContext SensorType.PhotoVideo ⟨0⟩ none ⟨0⟩ :=
  frameArrived_null_arrival_no_effect _ _ (Or.inl rfl)

/-- C3: when the conversion of the absolute timestamp into a perception
timestamp fails (the collaborator throws and the handler catches),
FrameArrived produces no SensorFrame, delivers nothing to the sink,
performs no cache write, and the latest-frame slot is unchanged. -/
theorem frameArrived_pose_failure_discards (ctx : MediaFrameReaderContext)
    (env : ArrivalEnv) (frame : MediaFrameReference)
    (videoMediaFrame : VideoMediaFrame) (bitmap : SoftwareBitmap)
    (hf : env.acquiredFrame = some frame)
    (hv : frame.videoMediaFrame = some videoMediaFrame)
    (hb : videoMediaFrame.softwareBitmap = some bitmap)
    (hg : env.fromHistoricalTargetTime
        (relativeTicksToAbsoluteTicks ctx.timeConverter frame.systemRelativeTime)
      = none) :
    ctx.FrameArrived env = Except.ok ⟨none, [Event.log]⟩ ∧ stepCtx ctx env = ctx := by
  have harr : ctx.FrameArrived env = Except.ok ⟨none, [Event.log]⟩ := by
    unfold MediaFrameReaderContext.FrameArrived
    rw [hf]
    dsimp only
    rw [hv]
    dsimp only
    rw [hb]
    dsimp only
    rw [hg]
  refine ⟨harr, ?_⟩
  unfold stepCtx
  rw [harr]

/-- C3 witness: a concrete arrival whose perception-timestamp resolution
fails is fully discarded. -/
theorem frameArrived_pose_failure_discards_witness :
    (mkMediaFrameReaderContext SensorType.PhotoVideo ⟨0⟩ (some ()) ⟨0⟩).FrameArrived
        ⟨some ⟨5, some ⟨some ⟨2, 2, [9, 9, 9, 9]⟩, none⟩, []⟩, fun _ => none⟩
      = Except.ok ⟨none, [Event.log]⟩
      ∧ stepCtx (mkMediaFrameReaderContext SensorType.PhotoVideo ⟨0⟩ (some ()) ⟨0⟩)
          ⟨some ⟨5, some ⟨some ⟨2, 2, [9, 9, 9, 9]⟩, none⟩, []⟩, fun _ => none⟩
        = mkMediaFrameReaderContext SensorType.PhotoVideo ⟨0⟩ (some ()) ⟨0⟩ :=
  frameArrived_pose_failure_discards _ _ _ _ _ rfl rfl rfl rfl

/-- C8: for every successfully processed arrival with a configured sink,
the event trace is exactly sink delivery, then lock acquisition, then the
cache write, then lock release: Send happens synchronously before the
cache update and outside the mutual-exclusion lock. -/
theorem frameArrived_sink_before_cache (ctx : MediaFrameReaderContext)
    (env : ArrivalEnv) (outcome : ArrivalOutcome) (sf : SensorFrame)
    (h : ctx.FrameArrived env = Except.ok outcome)
    (hp : outcome.produced = some sf)
    (hs : ctx.sensorFrameSink ≠ none) :
    outcome.events
      = [Event.send sf, Event.lockAcquire, Event.cacheWrite sf, Event.lockRelease] := by
  obtain ⟨frame, videoMediaFrame, bitmap, pt, M, V, hf, hv, hb, hg, hfto, hcv,
    hsf, hout⟩ := frameArrived_ok_inversion ctx env outcome sf h hp
  rw [hout]
  cases hsink : ctx.sensorFrameSink with
  | none => exact absurd hsink hs
  | some u => simp [sinkEvents]

/-- C8 witness: a concrete successful arrival with a sink yields the
send-lock-write-release trace. -/
theorem frameArrived_sink_before_cache_witness :
    (ArrivalOutcome.mk
        (some ⟨SensorType.PhotoVideo, 5, ⟨2, 2, [9]⟩, zeroMatrix, zeroMatrix, none⟩)
        (sinkEvents (some ())
          ⟨SensorType.PhotoVideo, 5, ⟨2, 2, [9]⟩, zeroMatrix, zeroMatrix, none⟩)).events
      = [Event.send ⟨SensorType.PhotoVideo, 5, ⟨2, 2, [9]⟩, zeroMatrix, zeroMatrix, none⟩,
         Event.lockAcquire,
         Event.cacheWrite ⟨SensorType.PhotoVideo, 5, ⟨2, 2, [9]⟩, zeroMatrix, zeroMatrix, none⟩,
         Event.lockRelease] :=
  frameArrived_sink_before_cache
    (mkMediaFrameReaderContext SensorType.PhotoVideo ⟨0⟩ (some ()) ⟨0⟩)
    ⟨some ⟨5, some ⟨some ⟨2, 2, [9]⟩, none⟩, []⟩, fun _ => some 0⟩
    ⟨some ⟨SensorType.PhotoVideo, 5, ⟨2, 2, [9]⟩, zeroMatrix, zeroMatrix, none⟩,
      sinkEvents (some ())
        ⟨SensorType.PhotoVideo, 5, ⟨2, 2, [9]⟩, zeroMatrix, zeroMatrix, none⟩⟩
    ⟨SensorType.PhotoVideo, 5, ⟨2, 2, [9]⟩, zeroMatrix, zeroMatrix, none⟩
    rfl rfl (by decide)

/-- C10: GetLatestSensorFrame has no side effect on the handler state:
the context after the call is the context before it, and two consecutive
calls with no intervening arrival return the same reference. -/
theorem getLatestSensorFrame_pure (ctx : MediaFrameReaderContext) :
    (ctx.GetLatestSensorFrame).2 = ctx
      ∧ ((ctx.GetLatestSensorFrame).2.GetLatestSensorFrame).1
          = (ctx.GetLatestSensorFrame).1 :=
  ⟨rfl, rfl⟩

theorem extractFrameToOrigin_null (props : List (Guid × PropValue)) (origin : Nat)
    (h : lookupProp props c_MFSampleExtension_Spatial_CameraCoordinateSystem
           = some PropValue.nullValue) :
    extractFrameToOrigin props origin = Except.ok zeroMatrix := by
  unfold extractFrameToOrigin
  rw [h]
  rfl

theorem extractFrameToOrigin_invalid (props : List (Guid × PropValue)) (origin : Nat)
    (value : PropValue)
    (h : lookupProp props c_MFSampleExtension_Spatial_CameraCoordinateSystem = some value)
    (hcast : coordinateSystemCastSucceeds value = false) :
    extractFrameToOrigin props origin = Except.error PlatformExn.invalidCast := by
  unfold extractFrameToOrigin
  rw [h]
  cases value with
  | nullValue => simp [coordinateSystemCastSucceeds] at hcast
  | coordinateSystem cs => simp [coordinateSystemCastSucceeds] at hcast
  | byteArray bytes => rfl
  | intrinsicsHandle n => rfl
  | otherObject n => rfl

theorem extractCameraViewTransform_fails (props : List (Guid × PropValue))
    (value : PropValue)
    (h : lookupProp props c_MFSampleExtension_Spatial_CameraViewTransform = some value)
    (hcast : byteArrayCastSucceeds value = false) :
    ∃ err, extractCameraViewTransform props = Except.error err := by
  unfold extractCameraViewTransform
  rw [h]
  cases value with
  | byteArray bytes => simp [byteArrayCastSucceeds] at hcast
  | nullValue => exact ⟨PlatformExn.nullReference, rfl⟩
  | coordinateSystem cs => exact ⟨PlatformExn.invalidCast, rfl⟩
  | intrinsicsHandle n => exact ⟨PlatformExn.invalidCast, rfl⟩
  | otherObject n => exact ⟨PlatformExn.invalidCast, rfl⟩

/-- C1 (amended): for every arrival whose property-bag values under the
two spatial metadata keys are well-typed for the handler's casts, no
failure escapes FrameArrived: the caught perception-timestamp exception
and all missing-data conditions end in an ordinary return.  (The original
claim, which also covers ill-typed property values, is refuted by the
counterexample below: the source wraps only the
FromHistoricalTargetTime call in try/catch, so a failing safe_cast
propagates.) -/
theorem frameArrived_no_escape_when_well_typed (ctx : MediaFrameReaderContext)
    (env : ArrivalEnv)
    (h : ∀ frame, env.acquiredFrame = some frame
           → propsWellTyped frame.properties = true) :
    exceptIsOk (ctx.FrameArrived env) = true := by
  unfold MediaFrameReaderContext.FrameArrived
  cases hf : env.acquiredFrame with
  | none => rfl
  | some frame =>
    dsimp only
    cases hv : frame.videoMediaFrame with
    | none => rfl
    | some videoMediaFrame =>
      dsimp only
      cases hb : videoMediaFrame.softwareBitmap with
      | none => rfl
      | some bitmap =>
        dsimp only
        cases hg : env.fromHistoricalTargetTime
            (relativeTicksToAbsoluteTicks ctx.timeConverter frame.systemRelativeTime) with
        | none => rfl
        | some pt =>
          obtain ⟨M, hM⟩ := propsWellTyped_frameToOrigin_ok frame.properties
            ctx.spatialPerception.originCoordinateSystem (h frame hf)
          obtain ⟨V, hV⟩ := propsWellTyped_cameraViewTransform_ok frame.properties
            (h frame hf)
          rw [hM]
          dsimp only
          rw [hV]
          rfl

/-- C1 counterexample: an arrival whose coordinate-system property holds
a value of the wrong dynamic type makes the safe_cast at line 152 throw,
and the exception escapes FrameArrived — refuting the claim that every
internal failure (including cast failures) is converted to a silent
skip. -/
theorem frameArrived_escape_counterexample :
    (mkMediaFrameReaderContext SensorType.PhotoVideo ⟨0⟩ none ⟨0⟩).FrameArrived
        ⟨some ⟨0, some ⟨some ⟨1, 1, []⟩, none⟩,
           [(c_MFSampleExtension_Spatial_CameraCoordinateSystem,
             PropValue.byteArray [])]⟩,
         fun _ => some 0⟩
      = Except.error PlatformExn.invalidCast := rfl

/-- C1 witness: a well-typed arrival (empty property bag) completes
without an escaping failure. -/
theorem frameArrived_no_escape_witness :
    exceptIsOk ((mkMediaFrameReaderContext SensorType.PhotoVideo ⟨0⟩ none ⟨0⟩).FrameArrived
        ⟨some ⟨0, some ⟨some ⟨1, 1, []⟩, none⟩, []⟩, fun _ => some 0⟩) = true :=
  frameArrived_no_escape_when_well_typed _ _ (fun frame hf => by cases hf; rfl)

/-- C4: for every successfully processed arrival, the produced frame's
frameToOrigin equals the transform resolved into the origin coordinate
system when the origin-transform key is present with a coordinate system
that resolves, and the all-zero sentinel when the key is absent or
resolution yields no value. -/
theorem frameArrived_frameToOrigin_cases (ctx : MediaFrameReaderContext)
    (env : ArrivalEnv) (outcome : ArrivalOutcome) (sf : SensorFrame)
    (frame : MediaFrameReference)
    (h : ctx.FrameArrived env = Except.ok outcome)
    (hp : outcome.produced = some sf)
    (hf : env.acquiredFrame = some frame) :
    sf.frameToOrigin
      = (match lookupProp frame.properties
            c_MFSampleExtension_Spatial_CameraCoordinateSystem with
         | some (PropValue.coordinateSystem cs) =>
           (cs.tryGetTransformTo ctx.spatialPerception.originCoordinateSystem).getD
             zeroMatrix
         | _ => zeroMatrix) := by
  obtain ⟨frame2, videoMediaFrame, bitmap, pt, M, V, hf2, hv, hb, hg, hfto, hcv,
    hsf, hout⟩ := frameArrived_ok_inversion ctx env outcome sf h hp
  rw [hf] at hf2
  injection hf2 with hfr
  subst hfr
  rw [hsf]
  dsimp only
  cases hk : lookupProp frame.properties
      c_MFSampleExtension_Spatial_CameraCoordinateSystem with
  | none =>
    have hz := extractFrameToOrigin_key_absent frame.properties
      ctx.spatialPerception.originCoordinateSystem hk
    rw [hfto] at hz
    injection hz with hz
  | some value =>
    cases value with
    | coordinateSystem cs =>
      have hr := extractFrameToOrigin_resolved frame.properties
        ctx.spatialPerception.originCoordinateSystem cs hk
      rw [hfto] at hr
      injection hr with hr
    | nullValue =>
      have hz := extractFrameToOrigin_null frame.properties
        ctx.spatialPerception.originCoordinateSystem hk
      rw [hfto] at hz
      injection hz with hz
    | byteArray bytes =>
      have he := extractFrameToOrigin_invalid frame.properties
        ctx.spatialPerception.originCoordinateSystem _ hk rfl
      rw [hfto] at he
      cases he
    | intrinsicsHandle n =>
      have he := extractFrameToOrigin_invalid frame.properties
        ctx.spatialPerception.originCoordinateSystem _ hk rfl
      rw [hfto] at he
      cases he
    | otherObject n =>
      have he := extractFrameToOrigin_invalid frame.properties
        ctx.spatialPerception.originCoordinateSystem _ hk rfl
      rw [hfto] at he
      cases he

/-- C4 witness: with the origin-transform key present and resolving to a
concrete transform, the produced frame carries exactly that transform. -/
theorem frameArrived_frameToOrigin_cases_witness :
    (⟨SensorType.PhotoVideo, 0, ⟨1, 1, []⟩, ⟨List.replicate 16 5⟩, zeroMatrix, none⟩
        : SensorFrame).frameToOrigin
      = ⟨List.replicate 16 5⟩ :=
  frameArrived_frameToOrigin_cases
    (mkMediaFrameReaderContext SensorType.PhotoVideo ⟨0⟩ none ⟨0⟩)
    ⟨some ⟨0, some ⟨some ⟨1, 1, []⟩, none⟩,
       [(c_MFSampleExtension_Spatial_CameraCoordinateSystem,
         PropValue.coordinateSystem ⟨fun _ => some ⟨List.replicate 16 5⟩⟩)]⟩,
     fun _ => some 0⟩
    ⟨some ⟨SensorType.PhotoVideo, 0, ⟨1, 1, []⟩, ⟨List.replicate 16 5⟩, zeroMatrix, none⟩,
      [Event.lockAcquire,
       Event.cacheWrite
         ⟨SensorType.PhotoVideo, 0, ⟨1, 1, []⟩, ⟨List.replicate 16 5⟩, zeroMatrix, none⟩,
       Event.lockRelease]⟩
    ⟨SensorType.PhotoVideo, 0, ⟨1, 1, []⟩, ⟨List.replicate 16 5⟩, zeroMatrix, none⟩
    ⟨0, some ⟨some ⟨1, 1, []⟩, none⟩,
      [(c_MFSampleExtension_Spatial_CameraCoordinateSystem,
        PropValue.coordinateSystem ⟨fun _ => some ⟨List.replicate 16 5⟩⟩)]⟩
    rfl rfl rfl

/-- C5: for every successfully processed arrival, the produced frame's
cameraViewTransform equals the byte-exact reinterpretation of the
view-transform key's byte payload when that key is present, and the
all-zero sentinel when it is absent. -/
theorem frameArrived_cameraViewTransform_cases (ctx : MediaFrameReaderContext)
    (env : ArrivalEnv) (outcome : ArrivalOutcome) (sf : SensorFrame)
    (frame : MediaFrameReference)
    (h : ctx.FrameArrived env = Except.ok outcome)
    (hp : outcome.produced = some sf)
    (hf : env.acquiredFrame = some frame) :
    sf.cameraViewTransform
      = (match lookupProp frame.properties
            c_MFSampleExtension_Spatial_CameraViewTransform with
         | some (PropValue.byteArray bytes) => bytesToFloat4x4 bytes
         | _ => zeroMatrix) := by
  obtain ⟨frame2, videoMediaFrame, bitmap, pt, M, V, hf2, hv, hb, hg, hfto, hcv,
    hsf, hout⟩ := frameArrived_ok_inversion ctx env outcome sf h hp
  rw [hf] at hf2
  injection hf2 with hfr
  subst hfr
  rw [hsf]
  dsimp only
  cases hk : lookupProp frame.properties
      c_MFSampleExtension_Spatial_CameraViewTransform with
  | none =>
    have hz := extractCameraViewTransform_key_absent frame.properties hk
    rw [hcv] at hz
    injection hz with hz
  | some value =>
    cases value with
    | byteArray bytes =>
      have hr := extractCameraViewTransform_bytes frame.properties bytes hk
      rw [hcv] at hr
      injection hr with hr
    | nullValue =>
      obtain ⟨err, he⟩ := extractCameraViewTransform_fails frame.properties _ hk rfl
      rw [hcv] at he
      cases he
    | coordinateSystem cs =>
      obtain ⟨err, he⟩ := extractCameraViewTransform_fails frame.properties _ hk rfl
      rw [hcv] at he
      cases he
    | intrinsicsHandle n =>
      obtain ⟨err, he⟩ := extractCameraViewTransform_fails frame.properties _ hk rfl
      rw [hcv] at he
      cases he
    | otherObject n =>
      obtain ⟨err, he⟩ := extractCameraViewTransform_fails frame.properties _ hk rfl
      rw [hcv] at he
      cases he

/-- C5 witness: with the view-transform key present holding a concrete
64-byte payload, the produced frame stores its byte-exact
reinterpretation. -/
theorem frameArrived_cameraViewTransform_cases_witness :
    (⟨SensorType.PhotoVideo, 0, ⟨1, 1, []⟩, zeroMatrix,
        bytesToFloat4x4 (List.replicate 64 1), none⟩ : SensorFrame).cameraViewTransform
      = bytesToFloat4x4 (List.replicate 64 1) :=
  frameArrived_cameraViewTransform_cases
    (mkMediaFrameReaderContext SensorType.PhotoVideo ⟨0⟩ none ⟨0⟩)
    ⟨some ⟨0, some ⟨some ⟨1, 1, []⟩, none⟩,
       [(c_MFSampleExtension_Spatial_CameraViewTransform,
         PropValue.byteArray (List.replicate 64 1))]⟩,
     fun _ => some 0⟩
    ⟨some ⟨SensorType.PhotoVideo, 0, ⟨1, 1, []⟩, zeroMatrix,
        bytesToFloat4x4 (List.replicate 64 1), none⟩,
      [Event.lockAcquire,
       Event.cacheWrite ⟨SensorType.PhotoVideo, 0, ⟨1, 1, []⟩, zeroMatrix,
         bytesToFloat4x4 (List.replicate 64 1), none⟩,
       Event.lockRelease]⟩
    ⟨SensorType.PhotoVideo, 0, ⟨1, 1, []⟩, zeroMatrix,
      bytesToFloat4x4 (List.replicate 64 1), none⟩
    ⟨0, some ⟨some ⟨1, 1, []⟩, none⟩,
      [(c_MFSampleExtension_Spatial_CameraViewTransform,
        PropValue.byteArray (List.replicate 64 1))]⟩
    rfl rfl rfl

/-- C6 (amended): for every successfully processed arrival carrying the
camera-intrinsics metadata key, the stored intrinsics wrap the
reinterpreted handle, the reported bitmap height, and a width computed in
32-bit unsigned arithmetic: for the visible-light (tracking/grayscale)
sensor types it is the reported width times 4 reduced mod 2^32 — equal to
4·W exactly when 4·W < 2^32 — and for every other sensor type the
reported width unchanged (for any width representable in 32 bits).  (The
original claim's unconditional width = 4·W is refuted by the overflow
counterexample below.) -/
theorem frameArrived_intrinsics_width (ctx : MediaFrameReaderContext)
    (env : ArrivalEnv) (outcome : ArrivalOutcome) (sf : SensorFrame)
    (frame : MediaFrameReference) (videoMediaFrame : VideoMediaFrame)
    (bitmap : SoftwareBitmap) (value : PropValue)
    (h : ctx.FrameArrived env = Except.ok outcome)
    (hp : outcome.produced = some sf)
    (hf : env.acquiredFrame = some frame)
    (hv : frame.videoMediaFrame = some videoMediaFrame)
    (hb : videoMediaFrame.softwareBitmap = some bitmap)
    (hk : lookupProp frame.properties MFSampleExtension_SensorStreaming_CameraIntrinsics
            = some value) :
    sf.cameraIntrinsics
      = some ⟨reinterpretAsIntrinsicsHandle value,
          (if isVisibleLightCamera ctx.sensorType
           then bitmap.pixelWidth % 4294967296 * 4 % 4294967296
           else bitmap.pixelWidth % 4294967296),
          bitmap.pixelHeight⟩
      ∧ (isVisibleLightCamera ctx.sensorType = true
          → 4 * bitmap.pixelWidth < 4294967296
          → sf.cameraIntrinsics
              = some ⟨reinterpretAsIntrinsicsHandle value, 4 * bitmap.pixelWidth,
                  bitmap.pixelHeight⟩)
      ∧ (isVisibleLightCamera ctx.sensorType = false
          → bitmap.pixelWidth < 4294967296
          → sf.cameraIntrinsics
              = some ⟨reinterpretAsIntrinsicsHandle value, bitmap.pixelWidth,
                  bitmap.pixelHeight⟩) := by
  obtain ⟨frame2, vmf2, bitmap2, pt, M, V, hf2, hv2, hb2, hg, hfto, hcv, hsf, hout⟩ :=
    frameArrived_ok_inversion ctx env outcome sf h hp
  rw [hf] at hf2
  injection hf2 with hfr
  subst hfr
  rw [hv] at hv2
  injection hv2 with hvr
  subst hvr
  rw [hb] at hb2
  injection hb2 with hbr
  subst hbr
  have hci : sf.cameraIntrinsics
      = some ⟨reinterpretAsIntrinsicsHandle value,
          (if isVisibleLightCamera ctx.sensorType
           then bitmap.pixelWidth % 4294967296 * 4 % 4294967296
           else bitmap.pixelWidth % 4294967296),
          bitmap.pixelHeight⟩ := by
    rw [hsf]
    dsimp only
    unfold extractCameraIntrinsics
    rw [hk]
    dsimp only [SoftwareBitmap.copy]
  refine ⟨hci, ?_, ?_⟩
  · intro hvl hlt
    have hw : bitmap.pixelWidth % 4294967296 * 4 % 4294967296 = 4 * bitmap.pixelWidth := by
      omega
    rw [hci, if_pos hvl, hw]
  · intro hvl hlt
    have hw : bitmap.pixelWidth % 4294967296 = bitmap.pixelWidth :=
      Nat.mod_eq_of_lt hlt
    rw [hci, if_neg (by simp [hvl]), hw]

/-- C6 counterexample: a visible-light arrival whose bitmap reports width
2^30 produces intrinsics width (4 * 2^30) mod 2^32 = 0, not 4·W — the
multiplication at line 261 is unsigned 32-bit and overflows. -/
theorem frameArrived_intrinsics_width_counterexample :
    (mkMediaFrameReaderContext SensorType.VisibleLightLeftFront ⟨0⟩ none ⟨0⟩).FrameArrived
        ⟨some ⟨0, some ⟨some ⟨1073741824, 1, []⟩, none⟩,
           [(MFSampleExtension_SensorStreaming_CameraIntrinsics,
             PropValue.intrinsicsHandle 7)]⟩,
         fun _ => some 0⟩
      = Except.ok ⟨some ⟨SensorType.VisibleLightLeftFront, 0, ⟨1073741824, 1, []⟩,
            zeroMatrix, zeroMatrix, some ⟨7, 0, 1⟩⟩,
          [Event.lockAcquire,
           Event.cacheWrite ⟨SensorType.VisibleLightLeftFront, 0, ⟨1073741824, 1, []⟩,
             zeroMatrix, zeroMatrix, some ⟨7, 0, 1⟩⟩,
           Event.lockRelease]⟩
      ∧ (0 : Nat) ≠ 4 * 1073741824 := by
  constructor
  · rfl
  · decide

/-- C6 witness: a visible-light arrival with reported width 100 stores
intrinsics width 4 * 100. -/
theorem frameArrived_intrinsics_width_witness :
    (⟨SensorType.VisibleLightLeftFront, 0, ⟨100, 2, []⟩, zeroMatrix, zeroMatrix,
        some ⟨7, 400, 2⟩⟩ : SensorFrame).cameraIntrinsics = some ⟨7, 4 * 100, 2⟩ :=
  (frameArrived_intrinsics_width
    (mkMediaFrameReaderContext SensorType.VisibleLightLeftFront ⟨0⟩ none ⟨0⟩)
    ⟨some ⟨0, some ⟨some ⟨100, 2, []⟩, none⟩,
       [(MFSampleExtension_SensorStreaming_CameraIntrinsics,
         PropValue.intrinsicsHandle 7)]⟩,
     fun _ => some 0⟩
    ⟨some ⟨SensorType.VisibleLightLeftFront, 0, ⟨100, 2, []⟩, zeroMatrix, zeroMatrix,
        some ⟨7, 400, 2⟩⟩,
      [Event.lockAcquire,
       Event.cacheWrite ⟨SensorType.VisibleLightLeftFront, 0, ⟨100, 2, []⟩, zeroMatrix,
         zeroMatrix, some ⟨7, 400, 2⟩⟩,
       Event.lockRelease]⟩
    ⟨SensorType.VisibleLightLeftFront, 0, ⟨100, 2, []⟩, zeroMatrix, zeroMatrix,
      some ⟨7, 400, 2⟩⟩
    ⟨0, some ⟨some ⟨100, 2, []⟩, none⟩,
      [(MFSampleExtension_SensorStreaming_CameraIntrinsics,
        PropValue.intrinsicsHandle 7)]⟩
    ⟨some ⟨100, 2, []⟩, none⟩
    ⟨100, 2, []⟩
    (PropValue.intrinsicsHandle 7)
    rfl rfl rfl rfl rfl rfl).2.1 rfl (by decide)

/-- C9: when the camera-intrinsics metadata key is absent the produced
frame's cameraIntrinsics field is left unset (none, no sentinel), and the
handler's entire result is independent of the video frame's built-in
camera-intrinsics object — the source reads it at line 245 and never uses
it. -/
theorem frameArrived_builtin_intrinsics_unused :
    (∀ (ctx : MediaFrameReaderContext) (env : ArrivalEnv) (outcome : ArrivalOutcome)
        (sf : SensorFrame) (frame : MediaFrameReference),
        ctx.FrameArrived env = Except.ok outcome
        → outcome.produced = some sf
        → env.acquiredFrame = some frame
        → lookupProp frame.properties MFSampleExtension_SensorStreaming_CameraIntrinsics
            = none
        → sf.cameraIntrinsics = none)
    ∧ (∀ (ctx : MediaFrameReaderContext) (relativeTime : Int)
        (softwareBitmap : Option SoftwareBitmap) (props : List (Guid × PropValue))
        (resolver : Int → Option Nat) (builtin1 builtin2 : Option Nat),
        ctx.FrameArrived ⟨some ⟨relativeTime, some ⟨softwareBitmap, builtin1⟩, props⟩, resolver⟩
          = ctx.FrameArrived
              ⟨some ⟨relativeTime, some ⟨softwareBitmap, builtin2⟩, props⟩, resolver⟩) := by
  constructor
  · intro ctx env outcome sf frame h hp hf hk
    obtain ⟨frame2, vmf2, bitmap2, pt, M, V, hf2, hv2, hb2, hg, hfto, hcv, hsf, hout⟩ :=
      frameArrived_ok_inversion ctx env outcome sf h hp
    rw [hf] at hf2
    injection hf2 with hfr
    subst hfr
    rw [hsf]
    dsimp only
    unfold extractCameraIntrinsics
    rw [hk]
  · intro ctx relativeTime softwareBitmap props resolver builtin1 builtin2
    rfl

/-- C9 witness: with the intrinsics key absent but a built-in intrinsics
object present on the video frame, the produced frame's cameraIntrinsics
is unset. -/
theorem frameArrived_builtin_intrinsics_unused_witness :
    (⟨SensorType.PhotoVideo, 0, ⟨1, 1, []⟩, zeroMatrix, zeroMatrix, none⟩
        : SensorFrame).cameraIntrinsics = none :=
  frameArrived_builtin_intrinsics_unused.1
    (mkMediaFrameReaderContext SensorType.PhotoVideo ⟨0⟩ none ⟨0⟩)
    ⟨some ⟨0, some ⟨some ⟨1, 1, []⟩, some 42⟩, []⟩, fun _ => some 0⟩
    ⟨some ⟨SensorType.PhotoVideo, 0, ⟨1, 1, []⟩, zeroMatrix, zeroMatrix, none⟩,
      [Event.lockAcquire,
       Event.cacheWrite ⟨SensorType.PhotoVideo, 0, ⟨1, 1, []⟩, zeroMatrix, zeroMatrix, none⟩,
       Event.lockRelease]⟩
    ⟨SensorType.PhotoVideo, 0, ⟨1, 1, []⟩, zeroMatrix, zeroMatrix, none⟩
    ⟨0, some ⟨some ⟨1, 1, []⟩, some 42⟩, []⟩
    rfl rfl rfl rfl

theorem processAll_latest (envs : List ArrivalEnv) :
    ∀ (ctx : MediaFrameReaderContext),
      (∀ e ∈ envs, (producedFrame ctx e).isSome = true)
      → ∀ (hne : envs ≠ []),
        (processAll ctx envs).latestSensorFrame = producedFrame ctx (envs.getLast hne) := by
  induction envs with
  | nil =>
    intro ctx hall hne
    exact absurd rfl hne
  | cons e rest ih =>
    intro ctx hall hne
    cases rest with
    | nil =>
      have hs := hall e (List.mem_singleton.mpr rfl)
      show (stepCtx ctx e).latestSensorFrame = producedFrame ctx e
      unfold stepCtx
      unfold producedFrame at hs ⊢
      cases hfa : ctx.FrameArrived e with
      | error err =>
        rw [hfa] at hs
        simp at hs
      | ok outcome =>
        rw [hfa] at hs
        obtain ⟨produced, events⟩ := outcome
        cases produced with
        | none => simp at hs
        | some sf => rfl
    | cons e2 rest2 =>
      have hall2 : ∀ x ∈ e2 :: rest2, (producedFrame (stepCtx ctx e) x).isSome = true := by
        intro x hx
        rw [producedFrame_stepCtx]
        exact hall x (List.mem_cons_of_mem e hx)
      have h1 := ih (stepCtx ctx e) hall2 (List.cons_ne_nil e2 rest2)
      show (processAll (stepCtx ctx e) (e2 :: rest2)).latestSensorFrame = _
      rw [h1, producedFrame_stepCtx]
      congr 1

/-- C7: GetLatestSensorFrame on a freshly constructed context returns
empty; after a nonempty sequence of arrivals that all produce a frame, it
returns exactly the frame produced by the most recent arrival. -/
theorem getLatestSensorFrame_after_arrivals :
    (∀ (sensorType : SensorType) (spatialPerception : SpatialPerception)
        (sensorFrameSink : Option Unit) (timeConverter : TimeConverter),
        ((mkMediaFrameReaderContext sensorType spatialPerception sensorFrameSink
            timeConverter).GetLatestSensorFrame).1 = none)
    ∧ (∀ (ctx : MediaFrameReaderContext) (envs : List ArrivalEnv) (hne : envs ≠ []),
        (∀ e ∈ envs, (producedFrame ctx e).isSome = true)
        → ((processAll ctx envs).GetLatestSensorFrame).1
            = producedFrame ctx (envs.getLast hne)) := by
  constructor
  · intro sensorType spatialPerception sensorFrameSink timeConverter
    rfl
  · intro ctx envs hne hall
    exact processAll_latest envs ctx hall hne

/-- C7 witness: before any arrival the cache is empty; after two
successful arrivals it holds exactly the second arrival's frame. -/
theorem getLatestSensorFrame_after_arrivals_witness :
    ((mkMediaFrameReaderContext SensorType.PhotoVideo ⟨0⟩ none ⟨0⟩).GetLatestSensorFrame).1
        = none
      ∧ ((processAll (mkMediaFrameReaderContext SensorType.PhotoVideo ⟨0⟩ none ⟨0⟩)
            [⟨some ⟨1, some ⟨some ⟨1, 1, [3]⟩, none⟩, []⟩, fun _ => some 0⟩,
             ⟨some ⟨2, some ⟨some ⟨1, 1, [4]⟩, none⟩, []⟩,
               fun _ => some 0⟩]).GetLatestSensorFrame).1
          = some ⟨SensorType.PhotoVideo, 2, ⟨1, 1, [4]⟩, zeroMatrix, zeroMatrix, none⟩ :=
  ⟨getLatestSensorFrame_after_arrivals.1 SensorType.PhotoVideo ⟨0⟩ none ⟨0⟩,
   getLatestSensorFrame_after_arrivals.2
     (mkMediaFrameReaderContext SensorType.PhotoVideo ⟨0⟩ none ⟨0⟩)
     [⟨some ⟨1, some ⟨some ⟨1, 1, [3]⟩, none⟩, []⟩, fun _ => some 0⟩,
      ⟨some ⟨2, some ⟨some ⟨1, 1, [4]⟩, none⟩, []⟩, fun _ => some 0⟩]
     (List.cons_ne_nil _ _)
     (by
       intro e he
       rcases List.mem_cons.mp he with rfl | he2
       · rfl
       rcases List.mem_cons.mp he2 with rfl | he3
       · rfl
       exact absurd he3 (List.not_mem_nil e))⟩
